import Mathlib

/-!
Verification of the booking-platform backend (`api-rooms-node`).

The route handlers are shallowly embedded: the arithmetic blocks become
functions over `Nat`, `Int` and `ℚ`, the backend store becomes an explicit
state value, and each handler becomes a function from a request and a state
to a response and a new state.  JavaScript numbers are modelled as exact
rationals (every literal appearing in the claims is exactly representable),
`Math.ceil` as `Int.ceil`, `Math.round` as Mathlib `round` (both round half
toward positive infinity), and JavaScript truthiness is spelled out at each
use site.
-/

namespace ApiRooms

/-! ## Pagination (GET /api/rooms, GET /api/bookings, GET /api/favorites)

The three list endpoints share the same block:
`from = (page - 1) * limit`, `to = from + limit - 1`, `query.range(from, to)`,
`totalPages = Math.ceil(count / limit)`, `hasMore = page < totalPages`. -/

/-- Row range start requested from the backend: `(page - 1) * limit`. -/
def listFrom (page limit : Nat) : Int :=
  ((page : Int) - 1) * (limit : Int)

/-- Row range end requested from the backend: `from + limit - 1` (inclusive). -/
def listTo (page limit : Nat) : Int :=
  listFrom page limit + (limit : Int) - 1

/-- Embeds `Math.ceil(count / limit)` as computed by the handlers. -/
def totalPagesOf (count limit : Nat) : Int :=
  Int.ceil ((count : ℚ) / (limit : ℚ))

/-- The `pagination` object of a list response. -/
structure PageInfo where
  total : Nat
  currentPage : Nat
  totalPages : Int
  hasMore : Bool
deriving Repr, DecidableEq

/-- The pagination-relevant output of a list endpoint: the inclusive row
range sent to the backend and the `pagination` object of the response,
given the backend row count `count`. -/
def listHandler (page limit count : Nat) : (Int × Int) × PageInfo :=
  ((listFrom page limit, listTo page limit),
   { total := count
     currentPage := page
     totalPages := totalPagesOf count limit
     hasMore := decide ((page : Int) < totalPagesOf count limit) })

/-! ## Booking creation (POST /api/bookings) -/

/-- Milliseconds per day, `1000 * 60 * 60 * 24` in `src/routes/bookings.js`. -/
def msPerDay : Int := 1000 * 60 * 60 * 24

/-- Embeds `Math.ceil((end - start) / (1000*60*60*24))`, dates as epoch milliseconds. -/
def bookingNights (startMs endMs : Int) : Int :=
  Int.ceil (((endMs - startMs : Int) : ℚ) / (msPerDay : ℚ))

/-- A row of the `bookings` table as inserted by POST /api/bookings. -/
structure Booking where
  userId : Nat
  roomId : Nat
  startMs : Int
  endMs : Int
  price : ℚ
  status : String
deriving Repr, DecidableEq

/-- State visible to the bookings route: the `rooms` table (id and price),
the `bookings` table, and the per-user `bookings` counter of `user_stats`. -/
structure BookingsDb where
  rooms : List (Nat × ℚ)
  bookings : List Booking
  stats : List (Nat × Int)
deriving Repr, DecidableEq

/-- Embeds `rooms.select(price).eq(id, roomId).single()`. -/
def findRoomPrice (rooms : List (Nat × ℚ)) (roomId : Nat) : Option ℚ :=
  (rooms.find? (fun r => r.1 == roomId)).map (fun r => r.2)

/-- Outcome of POST /api/bookings. -/
inductive CreateBookingResult where
  | notFound
  | created (b : Booking)
deriving Repr, DecidableEq

/-- The raw-expression counter update (`bookings + 1`, `favorites - 1`, ...)
applied to the `user_stats` row of `userId`. -/
def bumpStats (stats : List (Nat × Int)) (userId : Nat) (d : Int) :
    List (Nat × Int) :=
  stats.map (fun p => if p.1 = userId then (p.1, p.2 + d) else p)

/-- Value of a `user_stats` counter column for `userId`. -/
def statsOf (stats : List (Nat × Int)) (userId : Nat) : Option Int :=
  (stats.find? (fun p => p.1 == userId)).map (fun p => p.2)

/-- POST /api/bookings: look the room up (404 when absent), price the stay as
`room.price * Math.ceil((end - start) / msPerDay)`, insert the booking with
status `active`, bump the user's booking counter. -/
def createBooking (db : BookingsDb) (userId roomId : Nat)
    (startMs endMs : Int) : CreateBookingResult × BookingsDb :=
  match findRoomPrice db.rooms roomId with
  | none => (.notFound, db)
  | some price =>
    let b : Booking :=
      { userId := userId
        roomId := roomId
        startMs := startMs
        endMs := endMs
        price := price * (bookingNights startMs endMs : ℚ)
        status := "active" }
    (.created b,
     { db with
        bookings := db.bookings ++ [b]
        stats := bumpStats db.stats userId 1 })

/-- Concrete store for the booking witness: one room with id 5 priced 100. -/
def bookingWitnessDb : BookingsDb :=
  { rooms := [(5, 100)], bookings := [], stats := [(1, 0)] }

/-! ## Checkout session creation (POST /api/payments/create-checkout-session) -/

/-- The request's `amount` field as JavaScript sees it: absent (or another
falsy non-number such as `null`), a value that coerces to `NaN`, a number, or
a non-empty numeric string of value `q`. -/
inductive JsAmount where
  | missing
  | nonNumeric
  | num (q : ℚ)
  | numStr (q : ℚ)
deriving Repr, DecidableEq

/-- JavaScript truthiness test `!amount` (numbers are falsy exactly at 0,
non-empty strings are truthy, absent values are falsy). -/
def jsFalsy : JsAmount → Bool
  | .missing => true
  | .nonNumeric => false
  | .num q => q == 0
  | .numStr _ => false

/-- Embeds `isNaN(amount)` after numeric coercion. -/
def jsIsNaN : JsAmount → Bool
  | .missing => true
  | .nonNumeric => true
  | .num _ => false
  | .numStr _ => false

/-- Embeds `amount <= 0` after numeric coercion (`NaN` comparisons are false). -/
def jsLeZero : JsAmount → Bool
  | .missing => false
  | .nonNumeric => false
  | .num q => decide (q ≤ 0)
  | .numStr q => decide (q ≤ 0)

/-- The guard `!amount || isNaN(amount) || amount <= 0`. -/
def amountRejected (a : JsAmount) : Bool :=
  jsFalsy a || jsIsNaN a || jsLeZero a

/-- Numeric value carried by the `amount` field, when there is one. -/
def amountValue : JsAmount → Option ℚ
  | .num q => some q
  | .numStr q => some q
  | _ => none

/-- Outcome of POST /create-checkout-session: 400, or a session whose
line item carries the minor-unit integer sent to the processor. -/
inductive CheckoutOutcome where
  | badRequest
  | session (unitAmount : Int)
deriving Repr, DecidableEq

/-- POST /create-checkout-session: reject on the guard, else create a session
with `unit_amount = Math.round(amount * 100)`. -/
def createCheckoutSession (a : JsAmount) : CheckoutOutcome :=
  if amountRejected a then .badRequest
  else
    match a with
    | .num q => .session (round (q * 100))
    | .numStr q => .session (round (q * 100))
    | _ => .badRequest

/-! ## Token authentication middleware (`authenticateUser`, src/routes/bookings.js) -/

/-- Result of `supabase.auth.getUser()` on the token-scoped client: a user,
no user with no error, an error reply, or the call itself throwing. -/
inductive GetUserResult where
  | ok (userId : Nat)
  | noUser
  | err
  | crash
deriving Repr, DecidableEq

/-- JavaScript `str.split(sep)` over the character list: split at every
separator, keeping empty chunks. -/
def splitOnChar (sep : Char) : List Char → List (List Char)
  | [] => [[]]
  | c :: cs =>
    let r := splitOnChar sep cs
    if c = sep then [] :: r
    else
      match r with
      | [] => [[c]]
      | g :: gs => (c :: g) :: gs

/-- The token string the backend sees: `authHeader.split(' ')[1]`
interpolated into a template literal, so a missing second segment becomes
the literal string `undefined`. -/
def tokenString (header : String) : String :=
  match (splitOnChar ' ' header.toList)[1]? with
  | some t => String.mk t
  | none => "undefined"

/-- Response of the middleware. -/
inductive AuthOutcome where
  | unauthorized
  | serverError
  | authenticated (userId : Nat)
deriving Repr, DecidableEq

/-- The middleware: 401 on a missing (or empty, hence falsy) header, 401 when
the backend returns an error or no user, 500 when the backend call throws. -/
def authenticateUser (backend : String → GetUserResult)
    (header : Option String) : AuthOutcome :=
  match header with
  | none => .unauthorized
  | some h =>
    if h = "" then .unauthorized
    else
      match backend (tokenString h) with
      | .ok u => .authenticated u
      | .noUser => .unauthorized
      | .err => .unauthorized
      | .crash => .serverError

/-- Concrete identity backend for witnesses: accepts exactly `tok123`. -/
def backendW : String → GetUserResult :=
  fun t => if t = "tok123" then .ok 7 else .err

/-! ## Stripe webhook (POST /api/payments/webhook) -/

/-- The `checkout.session` object of a Stripe event: id, customer email,
reconciliation metadata and the paid total in minor units. -/
structure StripeSession where
  id : String
  customerEmail : String
  roomId : Nat
  checkIn : String
  checkOut : String
  guests : Nat
  amountTotal : Int
deriving Repr, DecidableEq

/-- A verified Stripe event. -/
inductive StripeEvent where
  | completed (s : StripeSession)
  | expired (s : StripeSession)
  | other
deriving Repr, DecidableEq

/-- A row of `bookings` as inserted by the webhook handler. -/
structure WebhookBooking where
  userId : Nat
  roomId : Nat
  startDate : String
  endDate : String
  guests : Nat
  price : ℚ
  status : String
  paymentSessionId : String
  paymentStatus : String
deriving Repr, DecidableEq

/-- State visible to the webhook: `users` (id, email), `rooms`, `bookings`,
and the `bookings` counter of `user_stats`. -/
structure PaymentsDb where
  users : List (Nat × String)
  rooms : List (Nat × ℚ)
  bookings : List WebhookBooking
  stats : List (Nat × Int)
deriving Repr, DecidableEq

/-- Embeds `users.select(id).eq(email, ...).single()`. -/
def findUserByEmail (users : List (Nat × String)) (email : String) :
    Option Nat :=
  (users.find? (fun u => u.2 == email)).map (fun u => u.1)

/-- The `bookings` row the webhook inserts for session `s` and user `uid`:
status `active`, `payment_status: paid`, price `amount_total / 100`. -/
def webhookInsertedRow (s : StripeSession) (uid : Nat) : WebhookBooking :=
  { userId := uid
    roomId := s.roomId
    startDate := s.checkIn
    endDate := s.checkOut
    guests := s.guests
    price := (s.amountTotal : ℚ) / 100
    status := "active"
    paymentSessionId := s.id
    paymentStatus := "paid" }

/-- POST /webhook after `stripe.webhooks.constructEvent`: `none` models a
signature that fails verification (`constructEvent` throws, the handler
answers 400 before touching the store).  On `checkout.session.completed` the
handler resolves the user by the session's customer email (500 when absent),
re-validates the room (404 when absent), inserts a booking row with
`payment_status: paid` and bumps the user's booking counter. -/
def webhookHandler (ev : Option StripeEvent) (db : PaymentsDb) :
    Nat × PaymentsDb :=
  match ev with
  | none => (400, db)
  | some (.completed s) =>
    match findUserByEmail db.users s.customerEmail with
    | none => (500, db)
    | some uid =>
      match findRoomPrice db.rooms s.roomId with
      | none => (404, db)
      | some _ =>
        (200,
         { db with
            bookings := db.bookings ++ [webhookInsertedRow s uid]
            stats := bumpStats db.stats uid 1 })
  | some (.expired _) => (200, db)
  | some .other => (200, db)

/-- Concrete store for the webhook witnesses. -/
def paymentsWitnessDb : PaymentsDb :=
  { users := [(1, "ana@mail.mx")], rooms := [(5, 100)], bookings := [],
    stats := [(1, 0)] }

/-- Concrete completed session for the webhook witnesses. -/
def sessionW : StripeSession :=
  { id := "cs_1", customerEmail := "ana@mail.mx", roomId := 5,
    checkIn := "2024-04-10", checkOut := "2024-04-12", guests := 2,
    amountTotal := 20000 }

/-! ## Favorites (DELETE /api/favorites/:roomId, src/unnamed/part_000) -/

/-- State visible to the favorites route: the `favorites` pairs and the
`favorites` counter of `user_stats`. -/
structure FavoritesDb where
  favorites : List (Nat × Nat)
  stats : List (Nat × Int)
deriving Repr, DecidableEq

/-- DELETE /api/favorites/:roomId: delete every (user, room) match — deleting
nothing is not an error — then unconditionally send the raw-expression update
`favorites - 1` for the user's `user_stats` row, and answer success. -/
def deleteFavorite (db : FavoritesDb) (userId roomId : Nat) :
    Bool × FavoritesDb :=
  let remaining :=
    db.favorites.filter (fun p => !(p.1 == userId && p.2 == roomId))
  (true,
   { favorites := remaining
     stats := bumpStats db.stats userId (-1) })

/-- Concrete store for the favorites witness: no favorite rows, counter 0. -/
def favoritesWitnessDb : FavoritesDb :=
  { favorites := [], stats := [(1, 0)] }

/-! ## /api/auth/me and /api/auth/verify-token -/

/-- A row of the `users` table. -/
structure UserRow where
  id : Nat
  email : String
  name : String
deriving Repr, DecidableEq

/-- Embeds `users.select(...).eq(id, uid).single()`. -/
def findUserById (users : List UserRow) (uid : Nat) : Option UserRow :=
  users.find? (fun r => r.id == uid)

/-- GET /api/auth/me: principal id carried by the 200 response, `none` when
the route answers 401/500 (the row lookup `.single()` fails). -/
def meUserId (backend : String → GetUserResult) (header : Option String)
    (users : List UserRow) : Option Nat :=
  match authenticateUser backend header with
  | .authenticated uid =>
    match findUserById users uid with
    | some row => some row.id
    | none => none
  | _ => none

/-- Endpoint /api/auth/verify-token: `user.id` of the 200 response (the spread of the
`users` row overrides the basic `id` field when the row exists; otherwise the
basic principal id is returned), `none` when authentication fails. -/
def verifyTokenUserId (backend : String → GetUserResult)
    (header : Option String) (users : List UserRow) : Option Nat :=
  match authenticateUser backend header with
  | .authenticated uid =>
    match findUserById users uid with
    | some row => some row.id
    | none => some uid
  | _ => none

/-- Concrete users table for the me/verify-token witness. -/
def usersW : List UserRow :=
  [{ id := 7, email := "ana@mail.mx", name := "ana" }]

end ApiRooms

namespace ApiRooms

/-! ## Settings (src/unnamed/part_001) -/

/-- The `notifications` JSON column; each field may be absent in a stored
blob. -/
structure NotificationsJson where
  email : Option Bool
  push : Option Bool
  sms : Option Bool
  marketing : Option Bool
deriving Repr, DecidableEq

/-- The `privacy` JSON column. -/
structure PrivacyJson where
  profileVisibility : Option String
  activityVisibility : Option String
deriving Repr, DecidableEq

/-- The `security` JSON column. -/
structure SecurityJson where
  twoFactorAuth : Option Bool
  lastPasswordChange : Option String
deriving Repr, DecidableEq

/-- The `preferences` object of a formatted settings record (always built
field by field by `formatSettings`, hence total). -/
structure PreferencesOut where
  currency : String
  darkMode : Bool
  language : String
  timezone : String
deriving Repr, DecidableEq

/-- Default `notifications` of `getDefaultSettings` and `formatSettings`. -/
def defaultNotifications : NotificationsJson :=
  { email := some true, push := some true, sms := some false,
    marketing := some false }

/-- Default `privacy`. -/
def defaultPrivacy : PrivacyJson :=
  { profileVisibility := some "public", activityVisibility := some "private" }

/-- Default `security`; `lastPasswordChange` is the current instant. -/
def defaultSecurity (now : String) : SecurityJson :=
  { twoFactorAuth := some false, lastPasswordChange := some now }

/-- Default `preferences`. -/
def defaultPreferences : PreferencesOut :=
  { currency := "MXN", darkMode := false, language := "es",
    timezone := "America/Mexico_City" }

/-- A settings record as serialized to the caller.  The four sub-objects are
`Option`s so that their presence in the JSON response is a statement, not a
typing accident. -/
structure SettingsOut where
  id : Option Nat
  userId : Nat
  notifications : Option NotificationsJson
  privacy : Option PrivacyJson
  security : Option SecurityJson
  preferences : Option PreferencesOut
  createdAt : String
  updatedAt : String
deriving Repr, DecidableEq

/-- Embeds `getDefaultSettings(userId)`: the synthesized record, `id: null`. -/
def getDefaultSettings (userId : Nat) (now : String) : SettingsOut :=
  { id := none
    userId := userId
    notifications := some defaultNotifications
    privacy := some defaultPrivacy
    security := some (defaultSecurity now)
    preferences := some defaultPreferences
    createdAt := now
    updatedAt := now }

/-- A stored `user_settings` row: JSON sub-object columns plus the flat
`currency`/`theme`/`language`/`timezone` columns, any of which may be null. -/
structure StoredSettings where
  id : Nat
  userId : Nat
  notifications : Option NotificationsJson
  privacy : Option PrivacyJson
  security : Option SecurityJson
  currency : Option String
  theme : Option String
  language : Option String
  timezone : Option String
  createdAt : String
  updatedAt : String
deriving Repr, DecidableEq

/-- JavaScript `x || d` on a string column: null/undefined and the empty
string fall back to the default. -/
def jsOrString (v : Option String) (d : String) : String :=
  match v with
  | some s => if s = "" then d else s
  | none => d

/-- Embeds `formatSettings(settings)`: sub-objects fall back wholesale via `||`,
`preferences` is rebuilt field by field from the flat columns, and
`darkMode` is `settings.theme === 'dark'`. -/
def formatSettings (s : StoredSettings) : SettingsOut :=
  { id := some s.id
    userId := s.userId
    notifications := some (s.notifications.getD defaultNotifications)
    privacy := some (s.privacy.getD defaultPrivacy)
    security := some (s.security.getD
      { twoFactorAuth := some false, lastPasswordChange := some s.createdAt })
    preferences := some
      { currency := jsOrString s.currency "MXN"
        darkMode := s.theme == some "dark"
        language := jsOrString s.language "es"
        timezone := jsOrString s.timezone "America/Mexico_City" }
    createdAt := s.createdAt
    updatedAt := s.updatedAt }

/-- The `user_settings` store: whether the table exists (error 42P01
otherwise), its rows, and the next id the database will assign. -/
structure SettingsDb where
  tableExists : Bool
  rows : List StoredSettings
  nextId : Nat
deriving Repr, DecidableEq

/-- Embeds `user_settings.select(*).eq(user_id, userId).limit(1)`. -/
def findSettingsRow (rows : List StoredSettings) (userId : Nat) :
    Option StoredSettings :=
  rows.find? (fun r => r.userId == userId)

/-- The fresh `user_settings` row stored when the upsert of the synthesized
defaults inserts (`theme` stores `light` since default `darkMode` is false);
the database assigns the id and `created_at`. -/
def insertedDefaultRow (db : SettingsDb) (userId : Nat) (now : String) :
    StoredSettings :=
  { id := db.nextId
    userId := userId
    notifications := some defaultNotifications
    privacy := some defaultPrivacy
    security := some (defaultSecurity now)
    currency := some "MXN"
    theme := some "light"
    language := some "es"
    timezone := some "America/Mexico_City"
    createdAt := now
    updatedAt := now }

/-- Embeds `createOrUpdateSettings(userId)` with no explicit settings: upsert the
synthesized defaults and return the stored row. -/
def createOrUpdateSettings (db : SettingsDb) (userId : Nat) (now : String) :
    StoredSettings × SettingsDb :=
  match findSettingsRow db.rows userId with
  | some r =>
    let updated : StoredSettings :=
      { r with
        notifications := some defaultNotifications
        privacy := some defaultPrivacy
        security := some (defaultSecurity now)
        currency := some "MXN"
        theme := some "light"
        language := some "es"
        timezone := some "America/Mexico_City"
        updatedAt := now }
    (updated,
     { db with
        rows := db.rows.map (fun x => if x.userId == userId then updated else x) })
  | none =>
    (insertedDefaultRow db userId now,
     { db with
        rows := db.rows ++ [insertedDefaultRow db userId now]
        nextId := db.nextId + 1 })

/-- GET /api/settings: absent table → synthesized defaults, no write; no row
→ upsert defaults and return the stored result formatted; row → format it. -/
def getSettings (db : SettingsDb) (userId : Nat) (now : String) :
    SettingsOut × SettingsDb :=
  if db.tableExists = false then (getDefaultSettings userId now, db)
  else
    match findSettingsRow db.rows userId with
    | none =>
      let r := createOrUpdateSettings db userId now
      (formatSettings r.1, r.2)
    | some r => (formatSettings r, db)

/-- The settings payload of a record: the four sub-objects (everything the
reconciliation is about, excluding row metadata `id` and the timestamps). -/
def contentOf (r : SettingsOut) :
    Option NotificationsJson × Option PrivacyJson × Option SecurityJson ×
      Option PreferencesOut :=
  (r.notifications, r.privacy, r.security, r.preferences)

/-- All four sub-objects present in the serialized record. -/
def subObjectsPresent (r : SettingsOut) : Bool :=
  r.notifications.isSome && r.privacy.isSome && r.security.isSome &&
    r.preferences.isSome

/-- Every notifications sub-field present. -/
def notifFilled (n : NotificationsJson) : Bool :=
  n.email.isSome && n.push.isSome && n.sms.isSome && n.marketing.isSome

/-- Every privacy sub-field present. -/
def privacyFilled (p : PrivacyJson) : Bool :=
  p.profileVisibility.isSome && p.activityVisibility.isSome

/-- Every security sub-field present. -/
def securityFilled (s : SecurityJson) : Bool :=
  s.twoFactorAuth.isSome && s.lastPasswordChange.isSome

/-- The reading of C4: all sub-objects present and all their sub-fields
filled. -/
def subFieldsFilled (r : SettingsOut) : Bool :=
  (match r.notifications with | some n => notifFilled n | none => false) &&
  (match r.privacy with | some p => privacyFilled p | none => false) &&
  (match r.security with | some s => securityFilled s | none => false) &&
  r.preferences.isSome

/-- A stored row whose `notifications` blob is partial: only `email` set.
Such a row is produced by PUT /api/settings forwarding a partial client
object into the JSON column. -/
def storedBad : StoredSettings :=
  { id := 3
    userId := 1
    notifications := some
      { email := some false, push := none, sms := none, marketing := none }
    privacy := none
    security := none
    currency := none
    theme := none
    language := none
    timezone := none
    createdAt := "2024-01-01T00:00:00.000Z"
    updatedAt := "2024-01-02T00:00:00.000Z" }

/-- Store holding only `storedBad`. -/
def settingsDbBad : SettingsDb :=
  { tableExists := true, rows := [storedBad], nextId := 4 }

/-- A stored row with every nullable column null. -/
def storedEmpty : StoredSettings :=
  { id := 9
    userId := 2
    notifications := none
    privacy := none
    security := none
    currency := none
    theme := none
    language := none
    timezone := none
    createdAt := "2024-03-01T00:00:00.000Z"
    updatedAt := "2024-03-01T00:00:00.000Z" }

/-- Store for the settings witnesses: table exists, no rows. -/
def settingsDbEmpty : SettingsDb :=
  { tableExists := true, rows := [], nextId := 1 }

/-- Store whose `user_settings` table is absent (error 42P01). -/
def settingsDbMissing : SettingsDb :=
  { tableExists := false, rows := [], nextId := 1 }

end ApiRooms

namespace ApiRooms

/-! ## Theorems -/

theorem listFrom_eq (page limit : Nat) :
    listFrom page limit = ((page : Int) - 1) * (limit : Int) := rfl

lemma totalPagesOf_eq_natCeilDiv (count limit : Nat) (hl : 0 < limit) :
    totalPagesOf count limit = (((count + limit - 1) / limit : Nat) : Int) := by
  unfold totalPagesOf
  set m : Nat := (count + limit - 1) / limit with hm
  have hd := Nat.div_add_mod (count + limit - 1) limit
  have hr := Nat.mod_lt (count + limit - 1) hl
  rw [← hm] at hd
  have hlq : (0 : ℚ) < (limit : ℚ) := by exact_mod_cast hl
  have hcm : count ≤ limit * m := by omega
  have hml : limit * m + 1 ≤ count + limit := by omega
  have hub : (count : ℚ) / (limit : ℚ) ≤ (m : ℚ) := by
    rw [div_le_iff₀ hlq]
    have hq : (count : ℚ) ≤ (limit : ℚ) * (m : ℚ) := by exact_mod_cast hcm
    linarith
  have hmlq : (limit : ℚ) * (m : ℚ) + 1 ≤ (count : ℚ) + (limit : ℚ) := by
    exact_mod_cast hml
  have hlb : (m : ℚ) - 1 < (count : ℚ) / (limit : ℚ) := by
    rw [lt_div_iff₀ hlq]
    have hexp : ((m : ℚ) - 1) * (limit : ℚ) = (limit : ℚ) * (m : ℚ) - limit := by
      ring
    rw [hexp]
    linarith
  have : Int.ceil ((count : ℚ) / (limit : ℚ)) = (m : Int) := by
    rw [Int.ceil_eq_iff]
    constructor
    · push_cast
      exact hlb
    · push_cast
      exact hub
  simpa using this

/-- C2: each list endpoint requests the inclusive row range
`from = (page-1)*limit` to `to = from+limit-1`, and its `pagination` object
satisfies `totalPages = ceil(total/limit)` (stated as the ceiling division
`(total + limit - 1) / limit`) and `hasMore = (page < totalPages)`, where
`total` is the backend's row count. -/
theorem list_pagination_spec (page limit count : Nat) (hl : 0 < limit) :
    (listHandler page limit count).1 =
      (((page : Int) - 1) * (limit : Int),
        ((page : Int) - 1) * (limit : Int) + (limit : Int) - 1) ∧
    (listHandler page limit count).2.total = count ∧
    (listHandler page limit count).2.totalPages =
      (((count + limit - 1) / limit : Nat) : Int) ∧
    ((listHandler page limit count).2.hasMore = true ↔
      (page : Int) < (listHandler page limit count).2.totalPages) := by
  refine ⟨rfl, rfl, totalPagesOf_eq_natCeilDiv count limit hl, ?_⟩
  simp [listHandler]

theorem list_pagination_spec_witness :
    (0 < 10) ∧
    ((listHandler 2 10 25).1 = (10, 19) ∧
      (listHandler 2 10 25).2.total = 25 ∧
      (listHandler 2 10 25).2.totalPages = ((34 / 10 : Nat) : Int) ∧
      ((listHandler 2 10 25).2.hasMore = true ↔
        (2 : Int) < (listHandler 2 10 25).2.totalPages)) :=
  ⟨by decide, list_pagination_spec 2 10 25 (by decide)⟩

/-- C1: whenever the room lookup of POST /api/bookings succeeds, the inserted
booking's price is `room.price * ceil((endDate - startDate) / 86400000)` and
its status is `active`.  The witness below evaluates this at room price 100
over the span 2024-04-10 .. 2024-04-12 (epoch milliseconds), giving 200. -/
theorem createBooking_price_spec (db : BookingsDb) (userId roomId : Nat)
    (startMs endMs : Int) (p : ℚ)
    (hroom : findRoomPrice db.rooms roomId = some p) :
    ∃ b : Booking,
      (createBooking db userId roomId startMs endMs).1 =
        CreateBookingResult.created b ∧
      (createBooking db userId roomId startMs endMs).2.bookings =
        db.bookings ++ [b] ∧
      b.price =
        p * (Int.ceil (((endMs - startMs : Int) : ℚ) / 86400000) : ℚ) ∧
      b.status = "active" := by
  unfold createBooking
  rw [hroom]
  refine ⟨_, rfl, rfl, ?_, rfl⟩
  show p * (bookingNights startMs endMs : ℚ) = _
  unfold bookingNights msPerDay
  norm_num

theorem createBooking_price_spec_witness :
    (∃ b : Booking,
      (createBooking bookingWitnessDb 1 5 1712707200000 1712880000000).1 =
        CreateBookingResult.created b ∧
      (createBooking bookingWitnessDb 1 5 1712707200000 1712880000000).2.bookings =
        bookingWitnessDb.bookings ++ [b] ∧
      b.price =
        (100 : ℚ) *
          (Int.ceil (((1712880000000 - 1712707200000 : Int) : ℚ) / 86400000) : ℚ) ∧
      b.status = "active") ∧
    (100 : ℚ) *
        (Int.ceil (((1712880000000 - 1712707200000 : Int) : ℚ) / 86400000) : ℚ) =
      200 :=
  ⟨createBooking_price_spec bookingWitnessDb 1 5 1712707200000 1712880000000 100
      (by decide),
   by norm_num⟩

lemma createCheckoutSession_badRequest_iff (a : JsAmount) :
    createCheckoutSession a = CheckoutOutcome.badRequest ↔
      amountRejected a = true := by
  rcases a with _ | _ | q | q
  · simp [createCheckoutSession, amountRejected, jsFalsy, jsIsNaN, jsLeZero]
  · simp [createCheckoutSession, amountRejected, jsFalsy, jsIsNaN, jsLeZero]
  · by_cases h : amountRejected (JsAmount.num q) = true
    · simp [createCheckoutSession, h]
    · simp [createCheckoutSession, h]
  · by_cases h : amountRejected (JsAmount.numStr q) = true
    · simp [createCheckoutSession, h]
    · simp [createCheckoutSession, h]

lemma amountRejected_iff (a : JsAmount) :
    amountRejected a = true ↔
      amountValue a = none ∨ ∃ q : ℚ, amountValue a = some q ∧ q ≤ 0 := by
  rcases a with _ | _ | q | q
  · simp [amountRejected, jsFalsy, jsIsNaN, jsLeZero, amountValue]
  · simp [amountRejected, jsFalsy, jsIsNaN, jsLeZero, amountValue]
  · simp [amountRejected, jsFalsy, jsIsNaN, jsLeZero, amountValue]
    exact fun h => le_of_eq h
  · simp [amountRejected, jsFalsy, jsIsNaN, jsLeZero, amountValue]

/-- C5: POST /create-checkout-session answers 400 exactly when `amount` is
missing, non-numeric, or at most 0; otherwise the processor receives the
minor-unit integer `round(amount * 100)`.  The witness evaluates both halves:
`amount = 0` is rejected and `amount = 150.5` yields unit amount 15050. -/
theorem createCheckoutSession_spec (a : JsAmount) :
    (createCheckoutSession a = CheckoutOutcome.badRequest ↔
      amountValue a = none ∨ ∃ q : ℚ, amountValue a = some q ∧ q ≤ 0) ∧
    (∀ q : ℚ, amountValue a = some q → 0 < q →
      createCheckoutSession a = CheckoutOutcome.session (round (q * 100))) := by
  constructor
  · rw [createCheckoutSession_badRequest_iff]
    exact amountRejected_iff a
  · intro q hq h0
    rcases a with _ | _ | p | p
    · simp [amountValue] at hq
    · simp [amountValue] at hq
    · simp [amountValue] at hq
      subst hq
      have hr : amountRejected (JsAmount.num p) = false := by
        simp [amountRejected, jsFalsy, jsIsNaN, jsLeZero]
        constructor
        · exact ne_of_gt h0
        · exact h0
      simp [createCheckoutSession, hr]
    · simp [amountValue] at hq
      subst hq
      have hr : amountRejected (JsAmount.numStr p) = false := by
        simp [amountRejected, jsFalsy, jsIsNaN, jsLeZero]
        exact h0
      simp [createCheckoutSession, hr]

theorem createCheckoutSession_spec_witness :
    createCheckoutSession (JsAmount.num 0) = CheckoutOutcome.badRequest ∧
    createCheckoutSession (JsAmount.num 150.5) =
      CheckoutOutcome.session 15050 := by
  constructor
  · exact (createCheckoutSession_spec (JsAmount.num 0)).1.mpr
      (Or.inr ⟨0, rfl, le_refl 0⟩)
  · have h := (createCheckoutSession_spec (JsAmount.num 150.5)).2 150.5 rfl
      (by norm_num)
    rw [h]
    norm_num [round_eq]

/-- C7: the authenticator answers 401 when the Authorization header is
missing, when it has no second space-separated segment (the backend then
sees the literal token `undefined` and rejects it), and when the backend
returns an error or no principal; it answers 500 exactly when the backend
call itself throws. -/
theorem authenticateUser_spec (backend : String → GetUserResult)
    (header : Option String) :
    (header = none → authenticateUser backend header = AuthOutcome.unauthorized) ∧
    (∀ h : String, header = some h →
      (splitOnChar ' ' h.toList)[1]? = none →
      (backend "undefined" = GetUserResult.err ∨
        backend "undefined" = GetUserResult.noUser) →
      authenticateUser backend header = AuthOutcome.unauthorized) ∧
    (∀ h : String, header = some h →
      (backend (tokenString h) = GetUserResult.err ∨
        backend (tokenString h) = GetUserResult.noUser) →
      authenticateUser backend header = AuthOutcome.unauthorized) ∧
    (authenticateUser backend header = AuthOutcome.serverError ↔
      ∃ h : String, header = some h ∧ h ≠ "" ∧
        backend (tokenString h) = GetUserResult.crash) := by
  have general :
      ∀ h : String, header = some h →
        (backend (tokenString h) = GetUserResult.err ∨
          backend (tokenString h) = GetUserResult.noUser) →
        authenticateUser backend header = AuthOutcome.unauthorized := by
    intro h hh hb
    subst hh
    by_cases hemp : h = ""
    · simp [authenticateUser, hemp]
    · rcases hb with hb | hb <;> simp [authenticateUser, hemp, hb]
  refine ⟨?_, ?_, general, ?_⟩
  · intro hh
    subst hh
    rfl
  · intro h hh hsplit hb
    have htok : tokenString h = "undefined" := by
      unfold tokenString
      rw [hsplit]
    exact general h hh (by rw [htok]; exact hb)
  · cases header with
    | none =>
      constructor
      · intro hcontra
        exact absurd hcontra (by simp [authenticateUser])
      · rintro ⟨h, hh, -, -⟩
        exact absurd hh (by simp)
    | some h =>
      by_cases hemp : h = ""
      · subst hemp
        constructor
        · intro hcontra
          exact absurd hcontra (by simp [authenticateUser])
        · rintro ⟨h2, hh2, hne, -⟩
          injection hh2 with hh2
          exact absurd hh2.symm hne
      · constructor
        · intro hsrv
          refine ⟨h, rfl, hemp, ?_⟩
          rcases hb : backend (tokenString h) with u | _ | _ | _ <;>
            simp [authenticateUser, hemp, hb] at hsrv
          rfl
        · rintro ⟨h2, hh2, -, hb⟩
          injection hh2 with hh2
          subst hh2
          simp [authenticateUser, hemp, hb]

theorem authenticateUser_spec_witness :
    authenticateUser backendW (some "Bearer") = AuthOutcome.unauthorized ∧
    authenticateUser backendW none = AuthOutcome.unauthorized :=
  ⟨(authenticateUser_spec backendW (some "Bearer")).2.1 "Bearer" rfl (by decide)
      (Or.inl (by decide)),
   (authenticateUser_spec backendW none).1 rfl⟩

/-- C6: a webhook whose signature fails verification is answered 400 with the
store untouched, and any request that changes the store carried a verified
event. -/
theorem webhook_invalid_signature_spec (db : PaymentsDb) :
    webhookHandler none db = (400, db) ∧
    (∀ ev : Option StripeEvent, (webhookHandler ev db).2 ≠ db → ev ≠ none) := by
  refine ⟨rfl, ?_⟩
  intro ev hch hnone
  subst hnone
  exact hch rfl

theorem webhook_invalid_signature_spec_witness :
    webhookHandler none paymentsWitnessDb = (400, paymentsWitnessDb) ∧
    (some (StripeEvent.completed sessionW) ≠ (none : Option StripeEvent)) :=
  ⟨(webhook_invalid_signature_spec paymentsWitnessDb).1,
   (webhook_invalid_signature_spec paymentsWitnessDb).2
      (some (StripeEvent.completed sessionW)) (by decide)⟩

/-- C8: on a verified `checkout.session.completed` event the handler resolves
the user by the session's customer email, re-validates the room (404 with no
write when absent), inserts a booking row with `payment_status: paid` priced
`amount_total / 100`, and increments the user's booking counter. -/
theorem webhook_completed_spec (s : StripeSession) (db : PaymentsDb)
    (uid : Nat)
    (hu : findUserByEmail db.users s.customerEmail = some uid) :
    (findRoomPrice db.rooms s.roomId = none →
      webhookHandler (some (StripeEvent.completed s)) db = (404, db)) ∧
    (∀ p : ℚ, findRoomPrice db.rooms s.roomId = some p →
      ∃ b : WebhookBooking,
        webhookHandler (some (StripeEvent.completed s)) db =
          (200,
           { db with
              bookings := db.bookings ++ [b]
              stats := bumpStats db.stats uid 1 }) ∧
        b.userId = uid ∧ b.roomId = s.roomId ∧ b.paymentStatus = "paid" ∧
        b.price = (s.amountTotal : ℚ) / 100) := by
  constructor
  · intro hroom
    simp [webhookHandler, hu, hroom]
  · intro p hroom
    refine ⟨webhookInsertedRow s uid, ?_, rfl, rfl, rfl, rfl⟩
    simp [webhookHandler, hu, hroom]

theorem webhook_completed_spec_witness :
    ∃ b : WebhookBooking,
      webhookHandler (some (StripeEvent.completed sessionW)) paymentsWitnessDb =
        (200,
         { paymentsWitnessDb with
            bookings := paymentsWitnessDb.bookings ++ [b]
            stats := bumpStats paymentsWitnessDb.stats 1 1 }) ∧
      b.userId = 1 ∧ b.roomId = sessionW.roomId ∧ b.paymentStatus = "paid" ∧
      b.price = (sessionW.amountTotal : ℚ) / 100 :=
  (webhook_completed_spec sessionW paymentsWitnessDb 1 (by decide)).2 100
    (by decide)

lemma statsOf_bumpStats (stats : List (Nat × Int)) (userId : Nat) (d : Int) :
    statsOf (bumpStats stats userId d) userId =
      (statsOf stats userId).map (fun n => n + d) := by
  induction stats with
  | nil => rfl
  | cons p rest ih =>
    by_cases hp : p.1 = userId
    · simp [bumpStats, statsOf, List.find?_cons, hp]
    · have hbeq : (p.1 == userId) = false := by
        exact beq_false_of_ne hp
      simp only [bumpStats, List.map_cons, if_neg hp]
      simp only [statsOf, List.find?_cons, hbeq]
      exact ih

/-- C10: DELETE /api/favorites/:roomId reports success and always sends the
`favorites - 1` counter update for the user's stats row — also when no
favorite row matched, in which case the favorites table is unchanged but the
stored counter still drops (so it can drift below the number of favorite
rows, as the witness shows with a counter of -1 over zero rows). -/
theorem deleteFavorite_decrement_spec (db : FavoritesDb) (userId roomId : Nat)
    (n : Int) (hs : statsOf db.stats userId = some n) :
    (deleteFavorite db userId roomId).1 = true ∧
    statsOf (deleteFavorite db userId roomId).2.stats userId = some (n - 1) ∧
    ((userId, roomId) ∉ db.favorites →
      (deleteFavorite db userId roomId).2.favorites = db.favorites) := by
  refine ⟨rfl, ?_, ?_⟩
  · show statsOf (bumpStats db.stats userId (-1)) userId = some (n - 1)
    rw [statsOf_bumpStats, hs]
    simp [sub_eq_add_neg]
  · intro hmem
    show db.favorites.filter _ = db.favorites
    refine List.filter_eq_self.mpr ?_
    rintro ⟨a, b⟩ hp
    have hne : (a, b) ≠ (userId, roomId) := fun h => hmem (h ▸ hp)
    by_cases ha : a = userId
    · by_cases hb : b = roomId
      · exact absurd (by rw [ha, hb]) hne
      · simp [hb]
    · simp [ha]

theorem deleteFavorite_decrement_spec_witness :
    ((deleteFavorite favoritesWitnessDb 1 5).1 = true ∧
      statsOf (deleteFavorite favoritesWitnessDb 1 5).2.stats 1 =
        some (0 - 1) ∧
      ((1, 5) ∉ favoritesWitnessDb.favorites →
        (deleteFavorite favoritesWitnessDb 1 5).2.favorites =
          favoritesWitnessDb.favorites)) ∧
    statsOf (deleteFavorite favoritesWitnessDb 1 5).2.stats 1 = some (-1) ∧
    (deleteFavorite favoritesWitnessDb 1 5).2.favorites = [] :=
  ⟨deleteFavorite_decrement_spec favoritesWitnessDb 1 5 0 (by decide),
   by decide, by decide⟩

/-- C9: whenever GET /api/auth/me answers 200 with a principal id, the
verify-token endpoint answers the same principal id for the same token. -/
theorem me_verifyToken_agree (backend : String → GetUserResult)
    (header : Option String) (users : List UserRow) (pid : Nat)
    (hme : meUserId backend header users = some pid) :
    verifyTokenUserId backend header users = some pid := by
  rcases hauth : authenticateUser backend header with _ | _ | uid
  · simp [meUserId, hauth] at hme
  · simp [meUserId, hauth] at hme
  · rcases hfind : findUserById users uid with _ | row
    · simp [meUserId, hauth, hfind] at hme
    · simp [meUserId, hauth, hfind] at hme
      simp [verifyTokenUserId, hauth, hfind, hme]

theorem me_verifyToken_agree_witness :
    meUserId backendW (some "Bearer tok123") usersW = some 7 ∧
    verifyTokenUserId backendW (some "Bearer tok123") usersW = some 7 :=
  ⟨by decide,
   me_verifyToken_agree backendW (some "Bearer tok123") usersW 7 (by decide)⟩

/-! ## Settings theorems -/

lemma findSettingsRow_append_self (rows : List StoredSettings) (userId : Nat)
    (row : StoredSettings) (hnone : findSettingsRow rows userId = none)
    (hrow : row.userId = userId) :
    findSettingsRow (rows ++ [row]) userId = some row := by
  unfold findSettingsRow at *
  rw [List.find?_append, hnone]
  simp [hrow]

lemma getSettings_noRow (db : SettingsDb) (userId : Nat) (now : String)
    (ht : db.tableExists = true)
    (hnone : findSettingsRow db.rows userId = none) :
    getSettings db userId now =
      (formatSettings (insertedDefaultRow db userId now),
       { db with
          rows := db.rows ++ [insertedDefaultRow db userId now]
          nextId := db.nextId + 1 }) := by
  simp [getSettings, ht, hnone, createOrUpdateSettings]

lemma contentOf_inserted_eq_defaults (db : SettingsDb) (userId : Nat)
    (now : String) :
    contentOf (formatSettings (insertedDefaultRow db userId now)) =
      contentOf (getDefaultSettings userId now) := by
  have hdark : ((some "light" : Option String) == some "dark") = false := by
    decide
  simp [contentOf, formatSettings, insertedDefaultRow, getDefaultSettings,
    jsOrString, defaultPreferences, defaultSecurity, hdark, ite_self]

/-- C3: GET /api/settings follows the reconciliation algorithm: absent table
→ synthesized defaults with no write; table but no row → upsert the
defaults and answer the stored row formatted, whose settings payload equals
the defaults; row present → answer it formatted with no write.
Consequently a first fetch for a row-less user answers the default payload
(and stores a row), and a second fetch answers a stored, id-bearing row. -/
theorem getSettings_spec (db : SettingsDb) (userId : Nat) (now : String) :
    (db.tableExists = false →
      getSettings db userId now = (getDefaultSettings userId now, db)) ∧
    (db.tableExists = true → findSettingsRow db.rows userId = none →
      ∃ row : StoredSettings,
        getSettings db userId now =
          (formatSettings row,
           { db with rows := db.rows ++ [row], nextId := db.nextId + 1 }) ∧
        findSettingsRow (db.rows ++ [row]) userId = some row ∧
        contentOf (formatSettings row) =
          contentOf (getDefaultSettings userId now)) ∧
    (∀ r : StoredSettings, db.tableExists = true →
      findSettingsRow db.rows userId = some r →
      getSettings db userId now = (formatSettings r, db)) ∧
    (db.tableExists = true → findSettingsRow db.rows userId = none →
      ∀ now2 : String,
        contentOf (getSettings db userId now).1 =
          contentOf (getDefaultSettings userId now) ∧
        (getSettings (getSettings db userId now).2 userId now2).1.id ≠
          none) := by
  refine ⟨?_, ?_, ?_, ?_⟩
  · intro ht
    simp [getSettings, ht]
  · intro ht hnone
    exact ⟨insertedDefaultRow db userId now,
      getSettings_noRow db userId now ht hnone,
      findSettingsRow_append_self db.rows userId _ hnone rfl,
      contentOf_inserted_eq_defaults db userId now⟩
  · intro r ht hr
    simp [getSettings, ht, hr]
  · intro ht hnone now2
    rw [getSettings_noRow db userId now ht hnone]
    constructor
    · exact contentOf_inserted_eq_defaults db userId now
    · have hfind : findSettingsRow
          (db.rows ++ [insertedDefaultRow db userId now]) userId =
          some (insertedDefaultRow db userId now) :=
        findSettingsRow_append_self db.rows userId _ hnone rfl
      simp [getSettings, ht, hfind, formatSettings]

theorem getSettings_spec_witness :
    (getSettings settingsDbMissing 2 "t0" =
      (getDefaultSettings 2 "t0", settingsDbMissing)) ∧
    (∃ row : StoredSettings,
      getSettings settingsDbEmpty 2 "t0" =
        (formatSettings row,
         { settingsDbEmpty with
            rows := settingsDbEmpty.rows ++ [row]
            nextId := settingsDbEmpty.nextId + 1 }) ∧
      findSettingsRow (settingsDbEmpty.rows ++ [row]) 2 = some row ∧
      contentOf (formatSettings row) =
        contentOf (getDefaultSettings 2 "t0")) ∧
    (getSettings settingsDbBad 1 "t0" =
      (formatSettings storedBad, settingsDbBad)) ∧
    (contentOf (getSettings settingsDbEmpty 2 "t0").1 =
        contentOf (getDefaultSettings 2 "t0") ∧
      (getSettings (getSettings settingsDbEmpty 2 "t0").2 2 "t1").1.id ≠
        none) :=
  ⟨(getSettings_spec settingsDbMissing 2 "t0").1 rfl,
   (getSettings_spec settingsDbEmpty 2 "t0").2.1 rfl rfl,
   (getSettings_spec settingsDbBad 1 "t0").2.2.1 storedBad rfl (by decide),
   (getSettings_spec settingsDbEmpty 2 "t0").2.2.2 rfl rfl "t1"⟩

/-- C4 as stated is false on the code: the record the settings fetch returns
for a stored row whose `notifications` blob only sets `email` keeps the
other notification sub-fields missing — `formatSettings` falls back per
sub-object (`settings.notifications || defaults`), not per sub-field. -/
theorem settings_subfields_counterexample :
    subObjectsPresent
        ((getSettings settingsDbBad 1 "2024-02-02T00:00:00.000Z").1) = true ∧
    ((getSettings settingsDbBad 1 "2024-02-02T00:00:00.000Z").1).notifications =
      some { email := some false, push := none, sms := none,
             marketing := none } ∧
    subFieldsFilled
        ((getSettings settingsDbBad 1 "2024-02-02T00:00:00.000Z").1) =
      false := by
  decide

/-- C4 amended: every settings record returned to the caller has the four
sub-objects present and non-undefined; a sub-object absent in storage is
replaced wholesale by the complete default sub-object (and the preferences
fields default individually), while sub-fields inside a present stored
sub-object are passed through as stored.  The synthesized default record has
every sub-field filled. -/
theorem formatSettings_shape_spec (s : StoredSettings) (userId : Nat)
    (now : String) :
    subObjectsPresent (formatSettings s) = true ∧
    subObjectsPresent (getDefaultSettings userId now) = true ∧
    subFieldsFilled (getDefaultSettings userId now) = true ∧
    (s.notifications = none →
      (formatSettings s).notifications = some defaultNotifications) ∧
    (s.privacy = none → (formatSettings s).privacy = some defaultPrivacy) ∧
    (s.security = none →
      (formatSettings s).security =
        some { twoFactorAuth := some false,
               lastPasswordChange := some s.createdAt }) ∧
    (∃ p : PreferencesOut, (formatSettings s).preferences = some p) := by
  refine ⟨?_, ?_, ?_, ?_, ?_, ?_, ⟨_, rfl⟩⟩
  · simp [subObjectsPresent, formatSettings]
  · simp [subObjectsPresent, getDefaultSettings]
  · simp [subFieldsFilled, getDefaultSettings, notifFilled, privacyFilled,
      securityFilled, defaultNotifications, defaultPrivacy, defaultSecurity]
  · intro h
    simp [formatSettings, h]
  · intro h
    simp [formatSettings, h]
  · intro h
    simp [formatSettings, h]

theorem formatSettings_shape_spec_witness :
    subObjectsPresent (formatSettings storedEmpty) = true ∧
    (formatSettings storedEmpty).notifications = some defaultNotifications ∧
    (formatSettings storedEmpty).privacy = some defaultPrivacy ∧
    (formatSettings storedEmpty).security =
      some { twoFactorAuth := some false,
             lastPasswordChange := some storedEmpty.createdAt } ∧
    (∃ p : PreferencesOut,
      (formatSettings storedEmpty).preferences = some p) := by
  have h := formatSettings_shape_spec storedEmpty 2 "2024-03-02T00:00:00.000Z"
  exact ⟨h.1, h.2.2.2.1 rfl, h.2.2.2.2.1 rfl, h.2.2.2.2.2.1 rfl,
    h.2.2.2.2.2.2⟩

end ApiRooms
